import Mathlib

/-!
Verification development for the narcolepticfox/mcp repository (Go).

The Go source is shallowly embedded: each Go function that the claims
depend on becomes a Lean function over explicit state values.  External
effects are made explicit parameters or recorded in the state:
  * net.Listen / net.Dial outcomes are Bool parameters (`listenOk`, `dialOk`);
  * `go f(...)` statements are recorded as `Spawn` records (ghost trace of
    spawned goroutines, together with whether the shared context was already
    cancelled at spawn time);
  * `go callback(event)` observer notifications are recorded as `Delivery`
    records (ghost trace of spawned delivery goroutines); the Go runtime
    imposes no ordering between distinct goroutines, so any permutation of
    the spawned deliveries is a possible receipt order (`possibleSchedule`);
  * `time.Sleep` and connect calls inside the reconnect loop are recorded
    in a `RecEvent` trace;
  * `time.Now()` is an explicit `GoTime` argument where its value matters
    (ID generation); the `Timestamp` fields of events and responses that no
    claim inspects are carried as the `GoTime` argument or omitted where
    they are pure wall-clock noise.
Errors built with fmt.Errorf / errors.New are represented by the `GoErr`
inductive, one constructor per distinct error produced by the source.
-/

namespace MCP

/-- Lifecycle status of an MCP component (core `Status` enumeration:
Stopped, Starting, Running, Stopping, Failed). -/
inductive Status
  | stopped
  | starting
  | running
  | stopping
  | failed
deriving DecidableEq, Repr

/-- Errors returned by the Go source (fmt.Errorf / errors.New values).
`stateErr op st` stands for "cannot (op) ... in (st) state";
`connErr` for dial/listen failures; `maxReconnect` for
"max reconnection attempts reached" (the ReconnectExhausted error);
`notConnected` for "not connected to server"; `rpcErr` for "RPC error: ...";
`alreadyRegistered m` for "handler for method m already registered". -/
inductive GoErr
  | stateErr (op : String) (st : Status)
  | connErr (msg : String)
  | maxReconnect
  | notConnected
  | rpcErr (msg : String)
  | alreadyRegistered (method : String)
deriving DecidableEq, Repr

/-- StatusChangeEvent (core): previous status, new status and the causal
error.  The Timestamp field is time.Now() wall-clock noise that no claim
inspects and is not modelled. -/
structure StatusChangeEvent where
  oldStatus : Status
  newStatus : Status
  error : Option GoErr
deriving DecidableEq, Repr

/-- Ghost record of one `go callback(event)` statement spawned by
updateStatusLocked: which registered observer the goroutine will invoke,
the index of the transition that produced the event (spec-level sequence
number identifying the transition), and the event itself. -/
structure Delivery where
  observer : Nat
  seq : Nat
  event : StatusChangeEvent
deriving DecidableEq, Repr

/-- Ghost record of a `go f(...)` statement: the name of the goroutine body
and whether the component-wide context was already cancelled at the moment
the goroutine was spawned. -/
structure Spawn where
  task : String
  scopeCancelled : Bool
deriving DecidableEq, Repr

/-- Deliveries spawned by one transition: one goroutine per currently
registered callback, in the order the callbacks slice is traversed. -/
def dispatchEvent (callbacks : List Nat) (seq : Nat) (e : StatusChangeEvent) :
    List Delivery :=
  callbacks.map (fun o => ⟨o, seq, e⟩)

/-- Parameter (core): a named, typed parameter of a model request. -/
structure Parameter where
  name : String
  value : String
  ptype : String
deriving DecidableEq, Repr

/-- Wall-clock time as Go time.Time exposes it to the Format layout
"20060102150405": the broken-down civil fields down to the second, plus the
sub-second nanoseconds that this layout does not render. -/
structure GoTime where
  year : Nat
  month : Nat
  day : Nat
  hour : Nat
  minute : Nat
  second : Nat
  nanos : Nat
deriving DecidableEq, Repr

/-- Two-digit zero-padded decimal rendering (Go layout components 01..05). -/
def pad2 (n : Nat) : String :=
  if n < 10 then "0" ++ toString n else toString n

/-- Four-digit zero-padded decimal rendering (Go layout component 2006). -/
def pad4 (n : Nat) : String :=
  if n < 10 then "000" ++ toString n
  else if n < 100 then "00" ++ toString n
  else if n < 1000 then "0" ++ toString n
  else toString n

/-- Go t.Format with layout "20060102150405": year, month, day, hour,
minute, second, each zero-padded; the nanoseconds field is not rendered. -/
def formatYMDHMS (t : GoTime) : String :=
  pad4 t.year ++ pad2 t.month ++ pad2 t.day ++
    pad2 t.hour ++ pad2 t.minute ++ pad2 t.second

/-- generateID (core/models.go): "mcp-" followed by time.Now() formatted at
one-second resolution. -/
def generateID (now : GoTime) : String :=
  "mcp-" ++ formatYMDHMS now

/-- ModelRequest (core/models.go): identifier, model data fields and the
ordered parameter list.  interface-valued JSON fields are modelled as
strings, which is all the claims inspect. -/
structure ModelRequest where
  id : String
  modelData : List (String × String)
  parameters : List Parameter
deriving DecidableEq, Repr

/-- ModelResponse (core/models.go): identifier, success flag, error
message, result fields and creation timestamp. -/
structure ModelResponse where
  id : String
  success : Bool
  errorMessage : String
  results : List (String × String)
  timestamp : GoTime
deriving DecidableEq, Repr

/-- NewModelRequest (core/models.go): a fresh request with a generated ID
and empty, initialized model data and parameter containers. -/
def NewModelRequest (now : GoTime) : ModelRequest :=
  { id := generateID now
    modelData := []
    parameters := [] }

/-- NewModelResponse (core/models.go): a response for a given request,
carrying the same ID, success = true, empty results and the current time.
The ErrorMessage field keeps its Go zero value. -/
def NewModelResponse (req : ModelRequest) (now : GoTime) : ModelResponse :=
  { id := req.id
    success := true
    errorMessage := ""
    results := []
    timestamp := now }

/-- ErrorResponse (core/models.go): an unsuccessful response for a given
request carrying the error message; same ID as the request. -/
def ErrorResponse (req : ModelRequest) (err : String) (now : GoTime) :
    ModelResponse :=
  { id := req.id
    success := false
    errorMessage := err
    results := []
    timestamp := now }

/-- DefaultModelHandler.ProcessModel (server/handler.go): builds
NewModelResponse for the request and records the two result fields
"status" = "processed" and "message". -/
def defaultProcessModel (req : ModelRequest) (now : GoTime) : ModelResponse :=
  let resp := NewModelResponse req now
  { resp with
      results := resp.results ++
        [("status", "processed"), ("message", "Model processed successfully")] }

/-- Server state (server/server.go `Server` struct).  `handlers` is the
method-name registry mapping names to handler identities (handler values
are referenced by a Nat identity; their behaviour lives in a separate
`HandlerImpl` environment used by dispatch).  `pending`, `seq` and
`spawned` are ghost traces of the spawned goroutines; `ctxCancelled`
mirrors the context created by context.WithCancel in New and cancelled by
Stop; `nextId` supplies fresh identities for listeners. -/
structure ServerState where
  host : String
  port : Nat
  status : Status
  listeners : List Nat
  handlers : List (String × Nat)
  callbacks : List Nat
  pending : List Delivery
  seq : Nat
  ctxCancelled : Bool
  spawned : List Spawn
  nextId : Nat
deriving DecidableEq, Repr

/-- server.New: default status Stopped, empty registry and callback list,
and the cancellation context created once here (not in Start). -/
def ServerState.new (host : String) (port : Nat) : ServerState :=
  { host := host
    port := port
    status := .stopped
    listeners := []
    handlers := []
    callbacks := []
    pending := []
    seq := 0
    ctxCancelled := false
    spawned := []
    nextId := 0 }

/-- updateStatusLocked (server/server.go): record the new status and spawn
one notification goroutine per registered callback. -/
def ServerState.updateStatusLocked (s : ServerState) (newStatus : Status)
    (err : Option GoErr) : ServerState :=
  { s with
      status := newStatus
      pending := s.pending ++
        dispatchEvent s.callbacks s.seq ⟨s.status, newStatus, err⟩
      seq := s.seq + 1 }

/-- OnStatusChange (server/server.go): append a callback. -/
def ServerState.onStatusChange (s : ServerState) (o : Nat) : ServerState :=
  { s with callbacks := s.callbacks ++ [o] }

/-- The loop body of RegisterHandler (server/server.go): insert each
declared method in order, returning the AlreadyRegistered error as soon as
a name is found in the registry — the insertions already performed are kept
(the Go map is mutated in place). -/
def registerLoop (hid : Nat) (methods : List String)
    (handlers : List (String × Nat)) : Option GoErr × List (String × Nat) :=
  match methods with
  | [] => (none, handlers)
  | m :: rest =>
    match handlers.lookup m with
    | some _ => (some (.alreadyRegistered m), handlers)
    | none => registerLoop hid rest (handlers ++ [(m, hid)])

/-- RegisterHandler (server/server.go) for a handler with identity `hid`
declaring `methods`. -/
def ServerState.registerHandler (s : ServerState) (hid : Nat)
    (methods : List String) : Option GoErr × ServerState :=
  match registerLoop hid methods s.handlers with
  | (e, hs) => (e, { s with handlers := hs })

/-- server.Start: reject unless Stopped; record Starting; net.Listen
(outcome `listenOk`); on failure record Failed and return the error; on
success append the listener, spawn acceptConnections under the current
context, record Running. -/
def ServerState.start (s : ServerState) (listenOk : Bool) :
    Except GoErr Unit × ServerState :=
  if s.status ≠ .stopped then
    (.error (.stateErr "start" s.status), s)
  else
    let s := s.updateStatusLocked .starting none
    if listenOk then
      let s := { s with
        listeners := s.listeners ++ [s.nextId]
        nextId := s.nextId + 1 }
      let s := { s with
        spawned := s.spawned ++ [Spawn.mk "acceptConnections" s.ctxCancelled] }
      (.ok (), s.updateStatusLocked .running none)
    else
      (.error (.connErr "listen"),
        s.updateStatusLocked .failed (some (.connErr "listen")))

/-- server.Stop: reject unless Running; record Stopping; cancel the shared
context; close the listeners (an external effect on the sockets — the
slice itself is not cleared by the source); wait for the goroutines; record
Stopped. -/
def ServerState.stop (s : ServerState) : Except GoErr Unit × ServerState :=
  if s.status ≠ .running then
    (.error (.stateErr "stop" s.status), s)
  else
    let s := s.updateStatusLocked .stopping none
    let s := { s with ctxCancelled := true }
    (.ok (), s.updateStatusLocked .stopped none)

/-- Client options (client/options.go), restricted to the fields the
modelled code reads.  Durations are abstract Nat values. -/
structure ClientOptions where
  serverHost : String
  serverPort : Nat
  connectionTimeout : Nat
  autoReconnect : Bool
  maxReconnectAttempts : Nat
  reconnectDelay : Nat
deriving DecidableEq, Repr

/-- client DefaultOptions: localhost:5000, 30s timeout, auto-reconnect on,
3 attempts, 1s delay (durations in seconds). -/
def defaultClientOptions : ClientOptions :=
  { serverHost := "localhost"
    serverPort := 5000
    connectionTimeout := 30
    autoReconnect := true
    maxReconnectAttempts := 3
    reconnectDelay := 1 }

/-- Client state (client/client.go `Client` struct), with the same ghost
traces as the server model. -/
structure ClientState where
  opts : ClientOptions
  status : Status
  conn : Option Nat
  isConnected : Bool
  reconnectAttempt : Nat
  callbacks : List Nat
  pending : List Delivery
  seq : Nat
  ctxCancelled : Bool
  spawned : List Spawn
  nextId : Nat
deriving DecidableEq, Repr

/-- client.New: default status Stopped, no connection, and the cancellation
context created once here (not in Start). -/
def ClientState.new (opts : ClientOptions) : ClientState :=
  { opts := opts
    status := .stopped
    conn := none
    isConnected := false
    reconnectAttempt := 0
    callbacks := []
    pending := []
    seq := 0
    ctxCancelled := false
    spawned := []
    nextId := 0 }

/-- updateStatusLocked (client/client.go): identical to the server side. -/
def ClientState.updateStatusLocked (c : ClientState) (newStatus : Status)
    (err : Option GoErr) : ClientState :=
  { c with
      status := newStatus
      pending := c.pending ++
        dispatchEvent c.callbacks c.seq ⟨c.status, newStatus, err⟩
      seq := c.seq + 1 }

/-- OnStatusChange (client/client.go): append a callback. -/
def ClientState.onStatusChange (c : ClientState) (o : Nat) : ClientState :=
  { c with callbacks := c.callbacks ++ [o] }

/-- client connect: dial (outcome `dialOk`); on success install a fresh
jsonrpc2 connection (identified by `nextId`), mark connected, and spawn
monitorConnection under the current context. -/
def ClientState.connect (c : ClientState) (dialOk : Bool) :
    Option GoErr × ClientState :=
  if dialOk then
    let c := { c with
      conn := some c.nextId
      nextId := c.nextId + 1
      isConnected := true }
    (none, { c with
      spawned := c.spawned ++ [Spawn.mk "monitorConnection" c.ctxCancelled] })
  else
    (some (.connErr "dial"), c)

/-- client.Start: reject unless Stopped; record Starting; connect; on
failure record Failed and return the error; on success record Running. -/
def ClientState.start (c : ClientState) (dialOk : Bool) :
    Except GoErr Unit × ClientState :=
  if c.status ≠ .stopped then
    (.error (.stateErr "start" c.status), c)
  else
    let c := c.updateStatusLocked .starting none
    match c.connect dialOk with
    | (some e, c) => (.error e, c.updateStatusLocked .failed (some e))
    | (none, c) => (.ok (), c.updateStatusLocked .running none)

/-- client.Stop: reject unless Running; record Stopping; cancel the shared
context; close and drop the connection; wait for the goroutines; record
Stopped. -/
def ClientState.stop (c : ClientState) : Except GoErr Unit × ClientState :=
  if c.status ≠ .running then
    (.error (.stateErr "stop" c.status), c)
  else
    let c := c.updateStatusLocked .stopping none
    let c := { c with ctxCancelled := true }
    let c := { c with conn := none, isConnected := false }
    (.ok (), c.updateStatusLocked .stopped none)

/-- client.ProcessModel: fail with the not-connected error when no
connection exists; otherwise issue the correlated call, whose transport
outcome (reply, transport error, or context cancellation — all surfaced by
jsonrpc2 as an error value) is the explicit `callResult` argument.  RPC
errors are wrapped.  No branch touches the status or the callbacks. -/
def ClientState.processModel (c : ClientState)
    (callResult : Except String ModelResponse) :
    Except GoErr ModelResponse × ClientState :=
  match c.conn with
  | none => (.error .notConnected, c)
  | some _ =>
    match callResult with
    | .error e => (.error (.rpcErr e), c)
    | .ok r => (.ok r, c)

/-- One entry of the reconnect-loop trace: a full ReconnectDelay slept by
time.Sleep, or a call to connect (attempt index `i`, counting the ticks of
the loop from its entry). -/
inductive RecEvent
  | sleepFull (d : Nat)
  | connectCall (i : Nat)
deriving DecidableEq, Repr

/-- Bool test for a connect call in the trace. -/
def RecEvent.isConnectCall : RecEvent → Bool
  | .connectCall _ => true
  | .sleepFull _ => false

/-- The loop of attemptReconnect (client/client.go).  Per iteration, in
source order: check reconnectAttempt < MaxReconnectAttempts (loop
condition); increment reconnectAttempt; time.Sleep(ReconnectDelay) — an
uninterruptible full-delay sleep, recorded in the trace; then the
select on ctx.Done() (`cancelled i` tells whether the context is observed
cancelled at that check, the i-th of the loop); then connect (`connectOk i`
is the dial outcome), which on success resets the counter and returns, and
on failure only logs.  Falling out of the loop records Failed with the
max-reconnection error.  `fuel` bounds the recursion; callers pass
MaxReconnectAttempts - reconnectAttempt, which the loop condition keeps in
step with, so the fuel-exhaustion branch coincides with the loop exit. -/
def reconnectLoop (cancelled connectOk : Nat → Bool) :
    Nat → Nat → ClientState → List RecEvent → ClientState × List RecEvent
  | 0, _, c, tr => (c.updateStatusLocked .failed (some .maxReconnect), tr)
  | fuel + 1, i, c, tr =>
    if c.reconnectAttempt < c.opts.maxReconnectAttempts then
      let c := { c with reconnectAttempt := c.reconnectAttempt + 1 }
      let tr := tr ++ [RecEvent.sleepFull c.opts.reconnectDelay]
      if cancelled i then (c, tr)
      else
        let tr := tr ++ [RecEvent.connectCall i]
        if connectOk i then
          match c.connect true with
          | (_, c) => ({ c with reconnectAttempt := 0 }, tr)
        else
          reconnectLoop cancelled connectOk fuel (i + 1) c tr
    else
      (c.updateStatusLocked .failed (some .maxReconnect), tr)

/-- attemptReconnect (client/client.go): run the loop from tick 0. -/
def ClientState.attemptReconnect (cancelled connectOk : Nat → Bool)
    (c : ClientState) : ClientState × List RecEvent :=
  reconnectLoop cancelled connectOk
    (c.opts.maxReconnectAttempts - c.reconnectAttempt) 0 c []

/-- The tail of monitorConnection (client/client.go) once the disconnect
signal has fired: mark not connected, and when auto-reconnect is enabled
and the status is Running, run attemptReconnect. -/
def ClientState.monitorDisconnect (cancelled connectOk : Nat → Bool)
    (c : ClientState) : ClientState × List RecEvent :=
  match c.conn with
  | none => (c, [])
  | some _ =>
    let c := { c with isConnected := false }
    if c.opts.autoReconnect && c.status == .running then
      c.attemptReconnect cancelled connectOk
    else
      (c, [])

/-- JSON-RPC protocol error codes used by the dispatcher
(jsonrpc2 CodeMethodNotFound, CodeInvalidRequest, CodeInvalidParams,
CodeInternalError). -/
inductive RpcErrCode
  | methodNotFound
  | invalidRequest
  | invalidParams
  | internalError
deriving DecidableEq, Repr

/-- The behaviour of a registered handler value, as dispatch observes it
through the runtime type test `handler.(ModelHandler)`: either the value is
not a ModelHandler, or it is one and its ProcessModel body is the function
`f` (Go error represented as the String of `Except.error`). -/
inductive HandlerImpl
  | plain
  | model (f : ModelRequest → Except String ModelResponse)

/-- An inbound jsonrpc2 request: method name, request ID, and the params
payload as seen by json.Unmarshal into ModelRequest (`none` models a
payload the decoder rejects). -/
structure RpcRequest where
  method : String
  rid : String
  params : Option ModelRequest
deriving DecidableEq, Repr

/-- The protocol-level body of a reply: a jsonrpc2 error reply or a
serialized ModelResponse result. -/
inductive RpcReplyBody
  | errorReply (code : RpcErrCode) (msg : String)
  | result (resp : ModelResponse)
deriving DecidableEq, Repr

/-- A reply on the connection, always correlated to the request ID it
answers (conn.Reply / conn.ReplyWithError both take req.ID). -/
structure RpcReply where
  rid : String
  body : RpcReplyBody
deriving DecidableEq, Repr

/-- handleProcessModel (server/server.go): type-check the handler, decode
the params, run ProcessModel, and turn the outcome into a protocol reply.
Every branch replies; none closes the connection. -/
def handleProcessModel (impl : Nat → HandlerImpl) (hid : Nat)
    (req : RpcRequest) : RpcReplyBody :=
  match impl hid with
  | .plain => .errorReply .internalError "handler is not a ModelHandler"
  | .model f =>
    match req.params with
    | none => .errorReply .invalidParams "invalid params"
    | some mreq =>
      match f mreq with
      | .error e => .errorReply .internalError ("processing error: " ++ e)
      | .ok resp => .result resp

/-- rpcHandler.Handle (server/server.go): resolve the method name in the
registry; an unknown name gets a MethodNotFound error reply; a known name
is dispatched by method; every outcome is a reply on the open connection
and no branch closes it. -/
def handleRpc (handlers : List (String × Nat)) (impl : Nat → HandlerImpl)
    (req : RpcRequest) : RpcReply :=
  match handlers.lookup req.method with
  | none =>
    ⟨req.rid, .errorReply .methodNotFound ("method not found: " ++ req.method)⟩
  | some hid =>
    if req.method = "mcp.processModel" then
      ⟨req.rid, handleProcessModel impl hid req⟩
    else
      ⟨req.rid, .errorReply .invalidRequest ("unknown method: " ++ req.method)⟩

/-- The requests of one connection are served one by one by Handle; the
jsonrpc2 connection stays open throughout (only client closure or shutdown
ends it), so every inbound request receives its reply. -/
def handleConn (handlers : List (String × Nat)) (impl : Nat → HandlerImpl)
    (reqs : List RpcRequest) : List RpcReply :=
  reqs.map (handleRpc handlers impl)

/-- The sequence numbers of the transitions observer `o` receives, in the
order of the given schedule of deliveries. -/
def receiptSeqs (o : Nat) (sched : List Delivery) : List Nat :=
  (sched.filter (fun d => d.observer == o)).map Delivery.seq

/-- A possible receipt order for the spawned deliveries: each delivery is a
separate fire-and-forget goroutine and the Go runtime imposes no ordering
between distinct goroutines, so exactly the permutations of the spawned
list are the possible schedules. -/
def possibleSchedule (pending sched : List Delivery) : Prop :=
  pending.Perm sched

/-- Apply a sequence of transitions (new status, causal error) through
updateStatusLocked. -/
def runUpdates (s : ServerState) (us : List (Status × Option GoErr)) :
    ServerState :=
  us.foldl (fun t u => t.updateStatusLocked u.1 u.2) s

/-- Trace of `n` consecutive failing iterations of the reconnect loop
starting at tick `i`: each iteration sleeps the full delay `d` and then
calls connect. -/
def failTrail (i d : Nat) : Nat → List RecEvent
  | 0 => []
  | n + 1 =>
    RecEvent.sleepFull d :: RecEvent.connectCall i :: failTrail (i + 1) d n

/-- Concrete server in the Running state (for witnesses). -/
def srvRunning : ServerState :=
  { ServerState.new "127.0.0.1" 5000 with status := .running }

/-- Concrete server in the initial Stopped state (for witnesses). -/
def srvStopped : ServerState :=
  ServerState.new "127.0.0.1" 5000

/-- Concrete connected, Running client with default options (for
witnesses). -/
def cliRun : ClientState :=
  { ClientState.new defaultClientOptions with
      status := .running
      conn := some 0
      isConnected := true }

/-- The client state after a successful Stop of `cliRun` (for the
double-stop witness). -/
def cliAfterStop : ClientState :=
  cliRun.stop.2

/-- Concrete registry for the dispatch witness: only "mcp.processModel" is
registered, to handler identity 0. -/
def c7Handlers : List (String × Nat) :=
  [("mcp.processModel", 0)]

/-- Concrete handler environment for the dispatch witness. -/
def c7Impl : Nat → HandlerImpl :=
  fun _ => HandlerImpl.plain

/-- A request for an unregistered method name. -/
def c7Req : RpcRequest :=
  { method := "nope", rid := "r1", params := none }

/-- A subsequent request on the same connection, for a registered name. -/
def c7Req2 : RpcRequest :=
  { method := "mcp.processModel", rid := "r2", params := none }

/-- Concrete server with one registered observer (identity 7), before any
transition. -/
def c8Base : ServerState :=
  (ServerState.new "127.0.0.1" 5000).onStatusChange 7

/-- The transitions performed by a successful server Start. -/
def c8Updates : List (Status × Option GoErr) :=
  [(.starting, none), (.running, none)]

/-- The server after the two Start transitions ran with observer 7
registered. -/
def c8After : ServerState :=
  runUpdates c8Base c8Updates

/-- The delivery of the second transition to observer 7. -/
def c8Del1 : Delivery :=
  ⟨7, 1, ⟨.starting, .running, none⟩⟩

/-- The delivery of the first transition to observer 7. -/
def c8Del0 : Delivery :=
  ⟨7, 0, ⟨.stopped, .starting, none⟩⟩

/-- C1: for both client and server, start() in any state other than Stopped
and stop() in any state other than Running (in particular a second stop
after a successful one) return a StateError and return with the component
state — status, callbacks, and the trace of spawned status-change
deliveries — exactly as it was: no transition occurs and no event is
emitted. -/
theorem invalid_transition_rejected (s : ServerState) (c : ClientState)
    (lok dok : Bool) :
    (s.status ≠ .stopped →
      s.start lok = (.error (.stateErr "start" s.status), s)) ∧
    (s.status ≠ .running →
      s.stop = (.error (.stateErr "stop" s.status), s)) ∧
    (c.status ≠ .stopped →
      c.start dok = (.error (.stateErr "start" c.status), c)) ∧
    (c.status ≠ .running →
      c.stop = (.error (.stateErr "stop" c.status), c)) := by
  refine ⟨fun h => ?_, fun h => ?_, fun h => ?_, fun h => ?_⟩ <;>
    simp [ServerState.start, ServerState.stop, ClientState.start,
      ClientState.stop, h]

/-- Witness for C1: a Running server rejects start, a freshly built server
rejects stop, a Running client rejects start, and after a successful client
stop the second stop is rejected — each leaving the state untouched. -/
theorem invalid_transition_rejected_witness :
    (srvRunning.start true = (.error (.stateErr "start" .running), srvRunning)) ∧
    (srvStopped.stop = (.error (.stateErr "stop" .stopped), srvStopped)) ∧
    (cliRun.start true = (.error (.stateErr "start" .running), cliRun)) ∧
    (cliAfterStop.stop = (.error (.stateErr "stop" .stopped), cliAfterStop)) :=
  ⟨(invalid_transition_rejected srvRunning cliRun true true).1 (by decide),
   (invalid_transition_rejected srvStopped cliRun true true).2.1 (by decide),
   (invalid_transition_rejected srvStopped cliRun true true).2.2.1 (by decide),
   (invalid_transition_rejected srvStopped cliAfterStop true true).2.2.2
     (by decide)⟩

/-- C3 evidence: RegisterHandler on a registry already holding "b", with a
handler declaring ["a", "b"], returns the AlreadyRegistered error yet has
already inserted "a" into the registry — registration is not atomic (the
existing mapping for "b" itself is untouched). -/
theorem register_not_atomic_eval :
    (ServerState.registerHandler
        { ServerState.new "127.0.0.1" 5000 with handlers := [("b", 0)] }
        1 ["a", "b"]).1 = some (.alreadyRegistered "b") ∧
    (ServerState.registerHandler
        { ServerState.new "127.0.0.1" 5000 with handlers := [("b", 0)] }
        1 ["a", "b"]).2.handlers = [("b", 0), ("a", 1)] ∧
    ((ServerState.registerHandler
        { ServerState.new "127.0.0.1" 5000 with handlers := [("b", 0)] }
        1 ["a", "b"]).2.handlers.lookup "a" = some 1) := by
  refine ⟨rfl, rfl, rfl⟩

/-- C4 evidence: for the sequence New, Start (dial ok), Stop, Start
(dial ok), the second Start succeeds and reports Running, yet the
monitorConnection goroutine it spawns begins under the component context
that Stop already cancelled — the context is created once in New and never
recreated, so the second start does not run under a fresh, uncancelled
scope. -/
theorem second_start_under_cancelled_scope :
    ((((ClientState.new defaultClientOptions).start true).2.stop.2.start
        true).1 = .ok ()) ∧
    ((((ClientState.new defaultClientOptions).start true).2.stop.2.start
        true).2.status = .running) ∧
    ((((ClientState.new defaultClientOptions).start true).2.stop.2.start
        true).2.spawned.map Spawn.scopeCancelled = [false, true]) := by
  refine ⟨rfl, rfl, rfl⟩

/-- C6: every response constructor propagates the identifier of the request
it answers — NewModelResponse, ErrorResponse, and the default handler all
return a response whose ID equals req.ID, and the default handler answers a
request with identifier "abc" with a response with identifier "abc". -/
theorem response_id_matches_request (req : ModelRequest) (err : String)
    (now : GoTime) :
    (NewModelResponse req now).id = req.id ∧
    (ErrorResponse req err now).id = req.id ∧
    (defaultProcessModel req now).id = req.id ∧
    (defaultProcessModel { id := "abc", modelData := [], parameters := [] }
        now).id = "abc" :=
  ⟨rfl, rfl, rfl, rfl⟩

/-- C7: a request whose method name is not in the registry is answered with
a MethodNotFound protocol error reply correlated to its request ID, and the
rest of the requests of the same connection are served exactly as they
would otherwise be — dispatch never closes the connection. -/
theorem unknown_method_not_fatal (handlers : List (String × Nat))
    (impl : Nat → HandlerImpl) (req : RpcRequest) (rest : List RpcRequest)
    (h : handlers.lookup req.method = none) :
    handleRpc handlers impl req =
      ⟨req.rid, .errorReply .methodNotFound
        ("method not found: " ++ req.method)⟩ ∧
    handleConn handlers impl (req :: rest) =
      handleRpc handlers impl req :: handleConn handlers impl rest := by
  constructor
  · simp [handleRpc, h]
  · rfl

/-- Witness for C7: the registry holding only "mcp.processModel" answers a
request for method "nope" with a MethodNotFound error reply, and the
follow-up request on the same connection is served unchanged. -/
theorem unknown_method_not_fatal_witness :
    handleRpc c7Handlers c7Impl c7Req =
      ⟨c7Req.rid, .errorReply .methodNotFound
        ("method not found: " ++ c7Req.method)⟩ ∧
    handleConn c7Handlers c7Impl [c7Req, c7Req2] =
      handleRpc c7Handlers c7Impl c7Req ::
        handleConn c7Handlers c7Impl [c7Req2] :=
  ⟨(unknown_method_not_fatal c7Handlers c7Impl c7Req [c7Req2] rfl).1,
   (unknown_method_not_fatal c7Handlers c7Impl c7Req [c7Req2] rfl).2⟩

/-- C9: ProcessModel returns its outcome — not-connected error, wrapped
transport/RPC/cancellation error, or reply — without touching the client
state at all: status and the trace of spawned status-change deliveries
after the call equal those before it. -/
theorem processModel_state_frame (c : ClientState)
    (callResult : Except String ModelResponse) :
    (c.processModel callResult).2 = c ∧
    (c.processModel callResult).2.status = c.status ∧
    (c.processModel callResult).2.pending = c.pending := by
  have h : (c.processModel callResult).2 = c := by
    rcases hc : c.conn with _ | n <;> rcases callResult with e | r <;>
      simp [ClientState.processModel, hc]
  exact ⟨h, by rw [h], by rw [h]⟩

/-- C10: the generated request identifier is exactly "mcp-" followed by the
creation time rendered by the "20060102150405" layout, which has one-second
resolution; hence any two requests whose creation times agree on the civil
fields down to the second — however their sub-second parts differ — get
identical identifiers, so NewModelRequest does not guarantee uniqueness. -/
theorem generated_id_second_resolution (t1 t2 : GoTime)
    (h : t1.year = t2.year ∧ t1.month = t2.month ∧ t1.day = t2.day ∧
      t1.hour = t2.hour ∧ t1.minute = t2.minute ∧ t1.second = t2.second) :
    (NewModelRequest t1).id = "mcp-" ++ formatYMDHMS t1 ∧
    (NewModelRequest t1).id = (NewModelRequest t2).id := by
  obtain ⟨h1, h2, h3, h4, h5, h6⟩ := h
  exact ⟨rfl, by simp [NewModelRequest, generateID, formatYMDHMS,
    h1, h2, h3, h4, h5, h6]⟩

/-- Witness for C10: two distinct creation times within the same wall-clock
second (nanoseconds 0 and 999999999) yield identical request IDs. -/
theorem generated_id_second_resolution_witness :
    ((⟨2025, 10, 11, 3, 4, 5, 0⟩ : GoTime) ≠
      ⟨2025, 10, 11, 3, 4, 5, 999999999⟩) ∧
    (NewModelRequest ⟨2025, 10, 11, 3, 4, 5, 0⟩).id =
      (NewModelRequest ⟨2025, 10, 11, 3, 4, 5, 999999999⟩).id :=
  ⟨by decide,
   (generated_id_second_resolution ⟨2025, 10, 11, 3, 4, 5, 0⟩
      ⟨2025, 10, 11, 3, 4, 5, 999999999⟩
      ⟨rfl, rfl, rfl, rfl, rfl, rfl⟩).2⟩

theorem failTrail_countP (d : Nat) :
    ∀ (n i : Nat), (failTrail i d n).countP RecEvent.isConnectCall = n := by
  intro n
  induction n with
  | zero => intro i; rfl
  | succ m ih =>
    intro i
    simp [failTrail, List.countP_cons, RecEvent.isConnectCall, ih]

theorem reconnectLoop_exhaust (cancelled connectOk : Nat → Bool)
    (hcan : ∀ j, cancelled j = false) (hcon : ∀ j, connectOk j = false) :
    ∀ (fuel i : Nat) (c : ClientState) (tr : List RecEvent),
      c.reconnectAttempt + fuel ≤ c.opts.maxReconnectAttempts →
      reconnectLoop cancelled connectOk fuel i c tr =
        (ClientState.updateStatusLocked
          { c with reconnectAttempt := c.reconnectAttempt + fuel }
          .failed (some .maxReconnect),
         tr ++ failTrail i c.opts.reconnectDelay fuel) := by
  intro fuel
  induction fuel with
  | zero =>
    intro i c tr h
    simp [reconnectLoop, failTrail]
  | succ n ih =>
    intro i c tr h
    have hlt : c.reconnectAttempt < c.opts.maxReconnectAttempts := by omega
    have hih := ih (i + 1) { c with reconnectAttempt := c.reconnectAttempt + 1 }
      ((tr ++ [RecEvent.sleepFull c.opts.reconnectDelay]) ++
        [RecEvent.connectCall i])
      (by show c.reconnectAttempt + 1 + n ≤ c.opts.maxReconnectAttempts; omega)
    have harith : c.reconnectAttempt + 1 + n = c.reconnectAttempt + (n + 1) := by
      omega
    simp only [reconnectLoop, if_pos hlt, hcan, hcon, Bool.false_eq_true,
      if_false] at hih ⊢
    rw [hih, harith]
    simp [failTrail, List.append_assoc]

theorem reconnectLoop_success (cancelled : Nat → Bool) (m : Nat)
    (hcan : ∀ j, cancelled j = false) :
    ∀ (k fuel i : Nat) (c : ClientState) (tr : List RecEvent),
      m = i + k → k < fuel →
      c.reconnectAttempt + fuel ≤ c.opts.maxReconnectAttempts →
      reconnectLoop cancelled (fun j => j == m) fuel i c tr =
        ({ ({ c with reconnectAttempt := c.reconnectAttempt + (k + 1)
            }.connect true).2 with reconnectAttempt := 0 },
         (tr ++ failTrail i c.opts.reconnectDelay k) ++
           [RecEvent.sleepFull c.opts.reconnectDelay,
            RecEvent.connectCall m]) := by
  intro k
  induction k with
  | zero =>
    intro fuel i c tr hm hk h
    obtain ⟨n, rfl⟩ : ∃ n, fuel = n + 1 := ⟨fuel - 1, by omega⟩
    have hlt : c.reconnectAttempt < c.opts.maxReconnectAttempts := by omega
    have hbeq : (i == m) = true := by simp [hm]
    simp only [reconnectLoop, if_pos hlt, hcan, Bool.false_eq_true, if_false,
      hbeq, if_true]
    simp [failTrail, hm]
  | succ p ih =>
    intro fuel i c tr hm hk h
    obtain ⟨n, rfl⟩ : ∃ n, fuel = n + 1 := ⟨fuel - 1, by omega⟩
    have hlt : c.reconnectAttempt < c.opts.maxReconnectAttempts := by omega
    have hbeq : (i == m) = false := by
      refine beq_eq_false_iff_ne.mpr ?_
      omega
    have hih := ih n (i + 1)
      { c with reconnectAttempt := c.reconnectAttempt + 1 }
      ((tr ++ [RecEvent.sleepFull c.opts.reconnectDelay]) ++
        [RecEvent.connectCall i])
      (by omega) (by omega)
      (by show c.reconnectAttempt + 1 + n ≤ c.opts.maxReconnectAttempts; omega)
    have harith : c.reconnectAttempt + 1 + (p + 1) =
        c.reconnectAttempt + (p + 1 + 1) := by omega
    simp only [reconnectLoop, if_pos hlt, hcan, Bool.false_eq_true, if_false,
      hbeq] at hih ⊢
    rw [hih, harith]
    simp [failTrail, List.append_assoc]

/-- C2: on a disconnection observed while Running with auto-reconnect on
and the counter at zero, if the server never becomes reachable the client
makes exactly MaxReconnectAttempts connect calls — never more — and then
records Failed with the max-reconnection (ReconnectExhausted) error as the
dispatched event shows; if instead attempt k+1 succeeds (k below the
bound), the counter is reset to zero, the status is still Running, no
status event is emitted, and no more than the budgeted attempts were
made. -/
theorem reconnect_bounded_and_reset (c : ClientState) (k : Nat)
    (hst : c.status = .running) (har : c.opts.autoReconnect = true)
    (hconn : c.conn.isSome = true) (hatt : c.reconnectAttempt = 0) :
    ((c.monitorDisconnect (fun _ => false) (fun _ => false)).2.countP
        RecEvent.isConnectCall = c.opts.maxReconnectAttempts ∧
      (c.monitorDisconnect (fun _ => false) (fun _ => false)).1.status =
        .failed ∧
      (c.monitorDisconnect (fun _ => false) (fun _ => false)).1.pending =
        c.pending ++ dispatchEvent c.callbacks c.seq
          ⟨.running, .failed, some .maxReconnect⟩) ∧
    (k < c.opts.maxReconnectAttempts →
      (c.monitorDisconnect (fun _ => false)
        (fun j => j == k)).1.reconnectAttempt = 0 ∧
      (c.monitorDisconnect (fun _ => false) (fun j => j == k)).1.status =
        .running ∧
      (c.monitorDisconnect (fun _ => false) (fun j => j == k)).1.pending =
        c.pending ∧
      (c.monitorDisconnect (fun _ => false) (fun j => j == k)).2.countP
        RecEvent.isConnectCall = k + 1 ∧
      k + 1 ≤ c.opts.maxReconnectAttempts) := by
  obtain ⟨n, hn⟩ := Option.isSome_iff_exists.mp hconn
  have hmd : ∀ co : Nat → Bool,
      c.monitorDisconnect (fun _ => false) co =
        ClientState.attemptReconnect (fun _ => false) co
          { c with isConnected := false } := by
    intro co
    simp [ClientState.monitorDisconnect, hn, har, hst]
  have hfuel : c.opts.maxReconnectAttempts -
      ({ c with isConnected := false } : ClientState).reconnectAttempt =
      c.opts.maxReconnectAttempts := by
    show c.opts.maxReconnectAttempts - c.reconnectAttempt = _
    rw [hatt]
    exact Nat.sub_zero _
  constructor
  · have hx := reconnectLoop_exhaust (fun _ => false) (fun _ => false)
      (fun _ => rfl) (fun _ => rfl) c.opts.maxReconnectAttempts 0
      { c with isConnected := false } []
      (by show c.reconnectAttempt + c.opts.maxReconnectAttempts ≤
            c.opts.maxReconnectAttempts
          omega)
    rw [hmd, ClientState.attemptReconnect, hfuel, hx]
    refine ⟨?_, rfl, ?_⟩
    · simp [failTrail_countP]
    · show ({ c with isConnected := false } : ClientState).pending ++ _ = _
      rw [show ({ c with isConnected := false } : ClientState).status =
        Status.running from hst]
  · intro hk
    have hx := reconnectLoop_success (fun _ => false) k (fun _ => rfl) k
      c.opts.maxReconnectAttempts 0 { c with isConnected := false } []
      (by omega) hk
      (by show c.reconnectAttempt + c.opts.maxReconnectAttempts ≤
            c.opts.maxReconnectAttempts
          omega)
    rw [hmd, ClientState.attemptReconnect, hfuel, hx]
    refine ⟨rfl, ?_, rfl, ?_, by omega⟩
    · show ({ c with isConnected := false } : ClientState).status = _
      exact hst
    · simp [List.countP_append, failTrail_countP, RecEvent.isConnectCall]

/-- Witness for C2 at the concrete default-configured Running client:
three reconnection attempts (the configured maximum) are made against an
unreachable server and the status ends Failed; with a success at the
second attempt the counter ends at zero and the status stays Running. -/
theorem reconnect_bounded_and_reset_witness :
    (cliRun.monitorDisconnect (fun _ => false) (fun _ => false)).2.countP
      RecEvent.isConnectCall = 3 ∧
    (cliRun.monitorDisconnect (fun _ => false) (fun _ => false)).1.status =
      .failed ∧
    (cliRun.monitorDisconnect (fun _ => false)
      (fun j => j == 1)).1.reconnectAttempt = 0 ∧
    (cliRun.monitorDisconnect (fun _ => false) (fun j => j == 1)).1.status =
      .running :=
  ⟨(reconnect_bounded_and_reset cliRun 1 rfl rfl rfl rfl).1.1,
   (reconnect_bounded_and_reset cliRun 1 rfl rfl rfl rfl).1.2.1,
   ((reconnect_bounded_and_reset cliRun 1 rfl rfl rfl rfl).2
     (by decide)).1,
   ((reconnect_bounded_and_reset cliRun 1 rfl rfl rfl rfl).2
     (by decide)).2.1⟩

/-- C5 counterexample: with the cancellation signal already set before the
reconnect loop runs, the concrete default-configured client still waits out
one full ReconnectDelay — the trace of the loop is exactly one
full-duration sleep, after which the shutdown check fires.  The wait is
therefore not interruptible by shutdown, contrary to the claim; only the
follow-up connect attempt is suppressed. -/
theorem reconnect_sleep_counterexample :
    (cliRun.attemptReconnect (fun _ => true) (fun _ => true)).2 =
      [RecEvent.sleepFull cliRun.opts.reconnectDelay] ∧
    cliRun.opts.reconnectDelay = 1 ∧
    (cliRun.attemptReconnect (fun _ => true) (fun _ => true)).2.countP
      RecEvent.isConnectCall = 0 :=
  ⟨rfl, rfl, rfl⟩

/-- C5 amended: each iteration of the reconnect loop sleeps the full
ReconnectDelay unconditionally and only then checks the shutdown signal;
once the component scope is cancelled, the loop stops after that
full-delay sleep and performs no connect attempt and no further state
change beyond the already-incremented attempt counter. -/
theorem reconnect_sleep_not_interruptible (c : ClientState)
    (connectOk : Nat → Bool)
    (h : c.reconnectAttempt < c.opts.maxReconnectAttempts) :
    (c.attemptReconnect (fun _ => true) connectOk).2 =
      [RecEvent.sleepFull c.opts.reconnectDelay] ∧
    (c.attemptReconnect (fun _ => true) connectOk).1 =
      { c with reconnectAttempt := c.reconnectAttempt + 1 } := by
  obtain ⟨n, hn⟩ : ∃ n,
      c.opts.maxReconnectAttempts - c.reconnectAttempt = n + 1 :=
    ⟨c.opts.maxReconnectAttempts - c.reconnectAttempt - 1, by omega⟩
  constructor <;> simp [ClientState.attemptReconnect, hn, reconnectLoop, h]

/-- Witness for C5 amended at the concrete default-configured client. -/
theorem reconnect_sleep_not_interruptible_witness :
    cliRun.reconnectAttempt < cliRun.opts.maxReconnectAttempts ∧
    (cliRun.attemptReconnect (fun _ => true) (fun j => j == 0)).2 =
      [RecEvent.sleepFull cliRun.opts.reconnectDelay] :=
  ⟨by decide,
   (reconnect_sleep_not_interruptible cliRun (fun j => j == 0)
     (by decide)).1⟩

theorem receiptSeqs_append (o : Nat) (p q : List Delivery) :
    receiptSeqs o (p ++ q) = receiptSeqs o p ++ receiptSeqs o q := by
  simp [receiptSeqs, List.filter_append]

theorem receiptSeqs_dispatch (o q : Nat) (cb : List Nat)
    (e : StatusChangeEvent) :
    receiptSeqs o (dispatchEvent cb q e) = List.replicate (cb.count o) q := by
  induction cb with
  | nil => rfl
  | cons x cb ih =>
    by_cases hx : x = o
    · subst hx
      simp [receiptSeqs, dispatchEvent, List.count_cons, List.replicate] at ih ⊢
      exact ih
    · have h1 : (x == o) = false := beq_eq_false_iff_ne.mpr hx
      have h2 : (o == x) = false := beq_eq_false_iff_ne.mpr (Ne.symm hx)
      simp [receiptSeqs, dispatchEvent, List.count_cons, h1, h2] at ih ⊢
      exact ih

/-- C8 amended: every transition spawns exactly one StatusChangeEvent
delivery goroutine for each observer registered at the time of the
transition, and the spawn order per observer matches the transition order
(the sequence numbers an observer is dispatched over a run of transitions
are exactly the consecutive transition indices); however, because each
delivery is a separate fire-and-forget goroutine, the receipt order at an
observer is not guaranteed to match. -/
theorem observer_dispatch_per_transition (s : ServerState)
    (us : List (Status × Option GoErr)) (o : Nat)
    (h : s.callbacks.count o = 1) :
    receiptSeqs o (runUpdates s us).pending =
      receiptSeqs o s.pending ++ List.range' s.seq us.length := by
  induction us generalizing s with
  | nil => simp [runUpdates]
  | cons u us ih =>
    have h1 := ih (s.updateStatusLocked u.1 u.2) h
    have hrun : runUpdates s (u :: us) =
        runUpdates (s.updateStatusLocked u.1 u.2) us := rfl
    rw [hrun, h1]
    rw [show (s.updateStatusLocked u.1 u.2).pending =
      s.pending ++ dispatchEvent s.callbacks s.seq ⟨s.status, u.1, u.2⟩
      from rfl]
    rw [receiptSeqs_append, receiptSeqs_dispatch, h]
    show _ ++ [s.seq] ++ List.range' (s.seq + 1) us.length = _
    rw [List.append_assoc, List.singleton_append, ← List.range'_succ]
    rfl

/-- Witness for C8 amended: observer 7, registered once, is dispatched
exactly the two transition indices 0 and 1, in order, over the two
transitions of a server start. -/
theorem observer_dispatch_per_transition_witness :
    c8Base.callbacks.count 7 = 1 ∧
    receiptSeqs 7 (runUpdates c8Base c8Updates).pending =
      receiptSeqs 7 c8Base.pending ++
        List.range' c8Base.seq c8Updates.length :=
  ⟨by decide,
   observer_dispatch_per_transition c8Base c8Updates 7 (by decide)⟩

/-- C8 counterexample: after the two transitions of a server start with
observer 7 registered, the deliveries were spawned in transition order
0 then 1, but the reversed receipt schedule is also a possible execution
(the two deliveries are independent goroutines), and in it observer 7
receives transition 1 before transition 0 — so receipt order matching
transition order is not guaranteed by the code. -/
theorem observer_order_counterexample :
    possibleSchedule c8After.pending [c8Del1, c8Del0] ∧
    receiptSeqs 7 c8After.pending = [0, 1] ∧
    receiptSeqs 7 [c8Del1, c8Del0] = [1, 0] := by
  refine ⟨?_, by decide, by decide⟩
  show List.Perm _ _
  have h : c8After.pending = [c8Del0, c8Del1] := by decide
  rw [h]
  exact List.Perm.swap c8Del1 c8Del0 []

end MCP
